import Mathlib

/-!
Verification of the host-side orchestration layer of the fused multi-head
attention extension (file `csrc/flash_attn/fmha_api.cpp`).

The four entry points (`mha_fwd`, `mha_bwd`, `mha_fwd_block`, `mha_bwd_block`)
are modelled as functions producing the ordered list of observable events the
host code performs: precondition-check failures, buffer zeroing/filling,
temporary-buffer allocation, RNG counter-offset reservation, the plan
(configure) launch and the compute launches.  The external tile kernels
(declared in `fmha.h`, not part of this file's source) are opaque: the effect
of the configure pass (the finalized split count, the per-thread element
count) is taken as an input of the model.  All pure parameter derivations
(tile size, sequence-length rounding, looping flag, fixed-point dropout
thresholds) are translated directly from the source.
-/

namespace FlashAttn

/-- Element types distinguished by the dispatch code: the two reduced-precision
floating formats, 32-bit float, 32-bit int, and a catch-all. -/
inductive DType where
  | fp16
  | bf16
  | f32
  | i32
  | other
deriving DecidableEq

/-- Device properties, as read from `at::cuda::getCurrentDeviceProperties()`:
compute-capability major and minor numbers. -/
structure DeviceProps where
  major : Nat
  minor : Nat
deriving DecidableEq

/-- Source: `dprops->major == 7 && dprops->minor == 5`. -/
def is_sm75 (d : DeviceProps) : Bool := d.major == 7 && d.minor == 5

/-- Source: `dprops->major == 8 && dprops->minor == 0`. -/
def is_sm80 (d : DeviceProps) : Bool := d.major == 8 && d.minor == 0

/-- Source: `dprops->major == 8 && dprops->minor >= 0` (the minor test is
vacuous over naturals). -/
def is_sm8x (d : DeviceProps) : Bool := d.major == 8

/-- Source: `dprops->major == 9 && dprops->minor == 0`. -/
def is_sm90 (d : DeviceProps) : Bool := d.major == 9 && d.minor == 0

/-- The aspects of an `at::Tensor` argument that the precondition checks
inspect: sizes, element type, device residency, innermost stride, and
contiguity. -/
structure TensorArg where
  sizes : List Nat
  dtype : DType
  isCuda : Bool
  lastStride : Nat
  contiguous : Bool
deriving DecidableEq

/-- `t.numel()`: product of the sizes. -/
def TensorArg.numel (t : TensorArg) : Nat := t.sizes.foldl (· * ·) 1

/-- `t.size(i)` (0 when out of range; the shape checks reject such tensors
anyway). -/
def TensorArg.size (t : TensorArg) (i : Nat) : Nat := t.sizes.getD i 0

/-! ## Parameter derivation (mha_fwd lines 255-264, mha_bwd lines 425-433) -/

/-- Forward tile size, source line 255:
`int blocksize_c = head_size > 64 ? 128 : 256;`. -/
def blocksize_c_fwd (head_size : Nat) : Nat :=
  if head_size > 64 then 128 else 256

/-- Backward tile size, source line 425:
`int blocksize_c = (head_size > 64 || (is_sm75 && head_size > 32)) ? 128 : 256;`. -/
def blocksize_c_bwd (head_size : Nat) (sm75 : Bool) : Nat :=
  if head_size > 64 || (sm75 && decide (head_size > 32)) then 128 else 256

/-- The key/value tile size as the specification's claim states it:
128 if `head_dim > 64` else 256, with no dependence on the hardware
generation.  Stated from the claim's words, for comparison with the source
definitions above. -/
def spec_kv_tile_size (head_dim : Nat) : Nat :=
  if head_dim > 64 then 128 else 256

/-- Padded max key length, source lines 256-262 (and 426-431): round the raw
value up to a multiple of the tile size, then override to a fixed 128 or 256
when the raw value is at most 128 or 256 respectively. -/
def round_seqlen_k (raw bc : Nat) : Nat :=
  if raw ≤ 128 then 128
  else if raw ≤ 256 then 256
  else ((raw + bc - 1) / bc) * bc

/-- Padded max query length, source line 263 (and 432):
`int max_seqlen_q = ((max_seqlen_q_ + 16 - 1) / 16) * 16;`. -/
def round_seqlen_q (raw : Nat) : Nat := ((raw + 16 - 1) / 16) * 16

/-- Looping flag, source line 264 (and 433): `bool loop = max_seqlen_k > blocksize_c;`. -/
def loop_flag (max_seqlen_k bc : Nat) : Bool := max_seqlen_k > bc

/-- Padded max key length in the block-sparse entry points (source lines
568-571 and 721-724): the tile size is fixed at 256 and the override tests the
rounded value rather than the raw one. -/
def round_seqlen_k_block (raw : Nat) : Nat :=
  let rounded := ((raw + 256 - 1) / 256) * 256
  if rounded ≤ 256 then 256 else rounded

/-! ## Fixed-point dropout thresholds (set_params_fprop lines 109-115)

The source stores the probability of KEEPING an element
(`params.p_dropout = 1.f - p_dropout`) and converts it to integer thresholds:
`uint32_t(std::floor(params.p_dropout * 4294967295.0))` and
`uint16_t(std::floor(params.p_dropout * 65535.0))`.  At the dyadic inputs used
below these double-precision computations are exact, so the rational model
coincides with the machine arithmetic. -/

/-- The keep probability `params.p_dropout = 1.f - p_dropout` (the function
argument is the probability of dropping). -/
def keep_prob (p_dropout : ℚ) : ℚ := 1 - p_dropout

/-- 32-bit fixed-point threshold, source line 113: floor of the keep
probability times 4294967295 (2^32 - 1). -/
def p_dropout_in_uint (p_dropout : ℚ) : ℤ :=
  Int.floor (keep_prob p_dropout * 4294967295)

/-- 16-bit fixed-point threshold, source line 114: floor of the keep
probability times 65535 (2^16 - 1). -/
def p_dropout_in_uint16 (p_dropout : ℚ) : ℤ :=
  Int.floor (keep_prob p_dropout * 65535)

/-- The 32-bit threshold as the specification's claim states it:
`floor(p * 2^32)` for keep probability `p`.  Stated from the claim's words,
for comparison with the source definition. -/
def spec_threshold32 (keep : ℚ) : ℤ := Int.floor (keep * 4294967296)

/-- The 16-bit analogue of the claimed formula: `floor(p * 2^16)`. -/
def spec_threshold16 (keep : ℚ) : ℤ := Int.floor (keep * 65536)

/-! ## Observable host-side events -/

/-- The observable actions the host code performs, in program order.  A failed
`TORCH_CHECK` raises and ends the trace with `checkFail`. -/
inductive Event where
  | checkFail
  | zeroOut
  | fillLseNegInf
  | zeroS
  | allocOTmpF32
  | allocDqTmpF32
  | zeroDq
  | zeroDk
  | zeroDv
  | zeroSoftmaxD
  | configure
  | zeroDqTmp
  | rngReserve (offset : ℤ)
  | launchFwd
  | launchBwd
  | launchFwdBlock
  | launchBwdBlock
  | copyDqTmpToDq
deriving DecidableEq

/-- Events that modify a buffer owned by the caller (the output tensor of the
forward pass, the gradient tensors of the backward pass).  Fills of freshly
allocated internal buffers (`softmax_lse`, `s`, `softmax_d`, the temporary
accumulators) are not caller-visible. -/
def caller_mutation : Event → Bool
  | .zeroOut => true
  | .zeroDq => true
  | .zeroDk => true
  | .zeroDv => true
  | .copyDqTmpToDq => true
  | _ => false

/-! ## mha_fwd (source lines 189-325) -/

/-- Arguments of `mha_fwd` together with the device properties the call reads. -/
structure FwdArgs where
  dprops : DeviceProps
  q : TensorArg
  k : TensorArg
  v : TensorArg
  out : TensorArg
  cu_seqlens_q : TensorArg
  cu_seqlens_k : TensorArg
  max_seqlen_q_ : Nat
  max_seqlen_k_ : Nat
  p_dropout : ℚ
  softmax_scale : ℚ
  zero_tensors : Bool
  is_causal : Bool
  return_softmax : Bool
  num_splits : ℤ
deriving DecidableEq

/-- `batch_size = cu_seqlens_q.numel() - 1` (line 240). -/
def FwdArgs.batch_size (a : FwdArgs) : Nat := a.cu_seqlens_q.numel - 1

/-- `total_q = sizes[TOTAL_DIM]` (line 241). -/
def FwdArgs.total_q (a : FwdArgs) : Nat := a.q.size 0

/-- `num_heads = sizes[H_DIM]` (line 242). -/
def FwdArgs.num_heads (a : FwdArgs) : Nat := a.q.size 1

/-- `head_size = sizes[D_DIM]` (line 243). -/
def FwdArgs.head_size (a : FwdArgs) : Nat := a.q.size 2

/-- `total_k = k.size(TOTAL_DIM)` (line 244). -/
def FwdArgs.total_k (a : FwdArgs) : Nat := a.k.size 0

/-- Architecture gate, line 211: `TORCH_CHECK(is_sm90 || is_sm8x || is_sm75)`. -/
def fwd_arch_ok (a : FwdArgs) : Bool :=
  is_sm90 a.dprops || is_sm8x a.dprops || is_sm75 a.dprops

/-- Dtype checks, lines 217-222. -/
def fwd_dtype_ok (a : FwdArgs) : Bool :=
  (a.q.dtype == .fp16 || ((is_sm8x a.dprops || is_sm90 a.dprops) && a.q.dtype == .bf16))
  && (a.k.dtype == a.q.dtype)
  && (a.v.dtype == a.q.dtype)
  && (a.out.dtype == a.q.dtype)
  && (a.cu_seqlens_q.dtype == .i32)
  && (a.cu_seqlens_k.dtype == .i32)

/-- Device-residency checks, lines 224-229. -/
def fwd_cuda_ok (a : FwdArgs) : Bool :=
  a.q.isCuda && a.k.isCuda && a.v.isCuda && a.out.isCuda
  && a.cu_seqlens_q.isCuda && a.cu_seqlens_k.isCuda

/-- Stride/contiguity checks, lines 231-236. -/
def fwd_stride_ok (a : FwdArgs) : Bool :=
  (a.q.lastStride == 1) && (a.k.lastStride == 1) && (a.v.lastStride == 1)
  && (a.out.lastStride == 1)
  && a.cu_seqlens_q.contiguous && a.cu_seqlens_k.contiguous

/-- Size checks, lines 245-246: `batch_size > 0`, `head_size % 8 == 0 && head_size <= 128`. -/
def fwd_size_ok (a : FwdArgs) : Bool :=
  decide (0 < a.batch_size)
  && (a.head_size % 8 == 0) && decide (a.head_size ≤ 128)

/-- Shape checks, lines 248-253 (`CHECK_SHAPE`). -/
def fwd_shape_ok (a : FwdArgs) : Bool :=
  (a.q.sizes == [a.total_q, a.num_heads, a.head_size])
  && (a.k.sizes == [a.total_k, a.num_heads, a.head_size])
  && (a.v.sizes == [a.total_k, a.num_heads, a.head_size])
  && (a.out.sizes == [a.total_q, a.num_heads, a.head_size])
  && (a.cu_seqlens_q.sizes == [a.batch_size + 1])
  && (a.cu_seqlens_k.sizes == [a.batch_size + 1])

/-- All precondition checks of `mha_fwd` that precede any buffer mutation,
in source order (lines 211-253). -/
def fwd_checks (a : FwdArgs) : Bool :=
  fwd_arch_ok a && fwd_dtype_ok a && fwd_cuda_ok a && fwd_stride_ok a
  && fwd_size_ok a && fwd_shape_ok a

/-- The derived forward tile size for a call. -/
def fwd_bc (a : FwdArgs) : Nat := blocksize_c_fwd a.head_size

/-- The derived padded max key length for a forward call. -/
def fwd_max_k (a : FwdArgs) : Nat := round_seqlen_k a.max_seqlen_k_ (fwd_bc a)

/-- The derived padded max query length for a forward call. -/
def fwd_max_q (a : FwdArgs) : Nat := round_seqlen_q a.max_seqlen_q_

/-- The derived looping flag for a forward call. -/
def fwd_loop (a : FwdArgs) : Bool := loop_flag (fwd_max_k a) (fwd_bc a)

/-- `int64_t counter_offset = params.b * params.h * 32` (line 312). -/
def fwd_counter_offset (a : FwdArgs) : ℤ :=
  (a.batch_size : ℤ) * (a.num_heads : ℤ) * 32

/-- Event trace of `mha_fwd`: precondition checks (211-253), parameter
derivation (255-264), allocation of the float32 temporary accumulator when
looping (275), the zero-initialization block (283-287), `set_params_fprop`
whose final check is `TORCH_CHECK(p_dropout < 1.f)` (line 117), the RNG
counter reservation under dropout (314-318), and the kernel launch (320). -/
def mha_fwd_trace (a : FwdArgs) : List Event :=
  if fwd_checks a then
    (if fwd_loop a then [Event.allocOTmpF32] else [])
    ++ (if a.zero_tensors then
          [Event.zeroOut, Event.fillLseNegInf]
          ++ (if a.return_softmax then [Event.zeroS] else [])
        else [])
    ++ (if a.p_dropout < 1 then
          (if 0 < a.p_dropout then [Event.rngReserve (fwd_counter_offset a)] else [])
          ++ [Event.launchFwd]
        else [Event.checkFail])
  else [Event.checkFail]

/-! ## mha_bwd (source lines 337-505) -/

/-- Arguments of `mha_bwd`, the device properties the call reads, and the
value the external configure pass leaves in `params.num_splits` (the configure
launch runs the external kernel dispatcher, which is not part of this source
file; its effect on the split count is therefore an input of the model). -/
structure BwdArgs where
  dprops : DeviceProps
  dout : TensorArg
  q : TensorArg
  k : TensorArg
  v : TensorArg
  out : TensorArg
  softmax_lse : TensorArg
  dq : TensorArg
  dk : TensorArg
  dv : TensorArg
  cu_seqlens_q : TensorArg
  cu_seqlens_k : TensorArg
  max_seqlen_q_ : Nat
  max_seqlen_k_ : Nat
  p_dropout : ℚ
  softmax_scale : ℚ
  zero_tensors : Bool
  is_causal : Bool
  num_splits : ℤ
  configured_num_splits : ℤ
deriving DecidableEq

/-- `batch_size = cu_seqlens_q.numel() - 1` (line 403). -/
def BwdArgs.batch_size (a : BwdArgs) : Nat := a.cu_seqlens_q.numel - 1

/-- `total_q = sizes[TOTAL_DIM]` (line 404). -/
def BwdArgs.total_q (a : BwdArgs) : Nat := a.q.size 0

/-- `num_heads = sizes[H_DIM]` (line 405). -/
def BwdArgs.num_heads (a : BwdArgs) : Nat := a.q.size 1

/-- `head_size = sizes[D_DIM]` (line 406). -/
def BwdArgs.head_size (a : BwdArgs) : Nat := a.q.size 2

/-- `total_k = k.size(TOTAL_DIM)` (line 407). -/
def BwdArgs.total_k (a : BwdArgs) : Nat := a.k.size 0

/-- Architecture gate, line 363. -/
def bwd_arch_ok (a : BwdArgs) : Bool :=
  is_sm90 a.dprops || is_sm8x a.dprops || is_sm75 a.dprops

/-- Dtype checks, lines 370-379. -/
def bwd_dtype_ok (a : BwdArgs) : Bool :=
  (a.q.dtype == .fp16 || ((is_sm8x a.dprops || is_sm90 a.dprops) && a.q.dtype == .bf16))
  && (a.k.dtype == a.q.dtype)
  && (a.v.dtype == a.q.dtype)
  && (a.out.dtype == a.q.dtype)
  && (a.dout.dtype == a.q.dtype)
  && (a.dq.dtype == a.q.dtype)
  && (a.dk.dtype == a.q.dtype)
  && (a.dv.dtype == a.q.dtype)
  && (a.cu_seqlens_q.dtype == .i32)
  && (a.cu_seqlens_k.dtype == .i32)

/-- Device-residency checks, lines 381-388. -/
def bwd_cuda_ok (a : BwdArgs) : Bool :=
  a.q.isCuda && a.k.isCuda && a.v.isCuda && a.out.isCuda && a.dout.isCuda
  && a.softmax_lse.isCuda && a.cu_seqlens_q.isCuda && a.cu_seqlens_k.isCuda

/-- Stride/contiguity checks, lines 390-399. -/
def bwd_stride_ok (a : BwdArgs) : Bool :=
  (a.q.lastStride == 1) && (a.k.lastStride == 1) && (a.v.lastStride == 1)
  && a.out.contiguous && a.dout.contiguous
  && (a.dq.lastStride == 1) && (a.dk.lastStride == 1) && (a.dv.lastStride == 1)
  && a.cu_seqlens_q.contiguous && a.cu_seqlens_k.contiguous

/-- Size checks, lines 408-412: batch size, head-size bucket, and the
hardware gate `head_size > 64 -> is_sm80 || is_sm90`. -/
def bwd_size_ok (a : BwdArgs) : Bool :=
  decide (0 < a.batch_size)
  && (a.head_size % 8 == 0) && decide (a.head_size ≤ 128)
  && (!(decide (a.head_size > 64)) || (is_sm80 a.dprops || is_sm90 a.dprops))

/-- Shape checks, lines 414-423. -/
def bwd_shape_ok (a : BwdArgs) : Bool :=
  (a.q.sizes == [a.total_q, a.num_heads, a.head_size])
  && (a.k.sizes == [a.total_k, a.num_heads, a.head_size])
  && (a.v.sizes == [a.total_k, a.num_heads, a.head_size])
  && (a.out.sizes == [a.total_q, a.num_heads, a.head_size])
  && (a.dout.sizes == [a.total_q, a.num_heads, a.head_size])
  && (a.dq.sizes == [a.total_q, a.num_heads, a.head_size])
  && (a.dk.sizes == [a.total_k, a.num_heads, a.head_size])
  && (a.dv.sizes == [a.total_k, a.num_heads, a.head_size])
  && (a.cu_seqlens_q.sizes == [a.batch_size + 1])
  && (a.cu_seqlens_k.sizes == [a.batch_size + 1])

/-- All precondition checks of `mha_bwd` that precede any buffer mutation,
in source order (lines 363-423). -/
def bwd_checks (a : BwdArgs) : Bool :=
  bwd_arch_ok a && bwd_dtype_ok a && bwd_cuda_ok a && bwd_stride_ok a
  && bwd_size_ok a && bwd_shape_ok a

/-- The derived backward tile size for a call (line 425, sm75-dependent). -/
def bwd_bc (a : BwdArgs) : Nat := blocksize_c_bwd a.head_size (is_sm75 a.dprops)

/-- The derived padded max key length for a backward call. -/
def bwd_max_k (a : BwdArgs) : Nat := round_seqlen_k a.max_seqlen_k_ (bwd_bc a)

/-- The derived padded max query length for a backward call. -/
def bwd_max_q (a : BwdArgs) : Nat := round_seqlen_q a.max_seqlen_q_

/-- The derived looping flag for a backward call. -/
def bwd_loop (a : BwdArgs) : Bool := loop_flag (bwd_max_k a) (bwd_bc a)

/-- `int64_t counter_offset = params.b * params.h * 32` (line 490). -/
def bwd_counter_offset (a : BwdArgs) : ℤ :=
  (a.batch_size : ℤ) * (a.num_heads : ℤ) * 32

/-- Event trace of `mha_bwd`: precondition checks (363-423), parameter
derivation (425-433), allocation of the float32 `dq_tmp` when looping (445),
the zero-initialization block (447-452), `set_params_dgrad` whose final check
is `TORCH_CHECK(p_dropout < 1.f)` (line 117), the configure launch (475), the
zero-initialization (and, when not looping, zeroed allocation) of `dq_tmp`
when the finalized split count exceeds 1 (477-484), the RNG counter
reservation under dropout (492-496), the execute launch (498), and the copy of
`dq_tmp` back into the caller's `dq` when the split count exceeds 1 (500-502). -/
def mha_bwd_trace (a : BwdArgs) : List Event :=
  if bwd_checks a then
    (if bwd_loop a then [Event.allocDqTmpF32] else [])
    ++ (if a.zero_tensors then
          [Event.zeroDq, Event.zeroDk, Event.zeroDv, Event.zeroSoftmaxD]
        else [])
    ++ (if a.p_dropout < 1 then
          [Event.configure]
          ++ (if 1 < a.configured_num_splits then [Event.zeroDqTmp] else [])
          ++ (if 0 < a.p_dropout then [Event.rngReserve (bwd_counter_offset a)] else [])
          ++ [Event.launchBwd]
          ++ (if 1 < a.configured_num_splits then [Event.copyDqTmpToDq] else [])
        else [Event.checkFail])
  else [Event.checkFail]

/-! ## mha_fwd_block (source lines 507-631) -/

/-- Arguments of `mha_fwd_block`, plus the per-thread element count that the
external configure pass stores in `launch_params.elts_per_thread` (the
configure launch runs the external block-sparse kernel dispatcher, not part of
this source file, so its effect is an input of the model). -/
structure FwdBlockArgs where
  dprops : DeviceProps
  q : TensorArg
  k : TensorArg
  v : TensorArg
  cu_seqlens_q : TensorArg
  cu_seqlens_k : TensorArg
  blockmask : TensorArg
  max_seqlen_q_ : Nat
  max_seqlen_k_ : Nat
  p_dropout : ℚ
  softmax_scale : ℚ
  is_causal : Bool
  return_softmax : Bool
  elts_per_thread : ℤ
deriving DecidableEq

/-- `batch_size = cu_seqlens_q.numel() - 1` (line 554). -/
def FwdBlockArgs.batch_size (a : FwdBlockArgs) : Nat := a.cu_seqlens_q.numel - 1

/-- `total_q = sizes[TOTAL_DIM]` (line 555). -/
def FwdBlockArgs.total_q (a : FwdBlockArgs) : Nat := a.q.size 0

/-- `num_heads = sizes[H_DIM]` (line 556). -/
def FwdBlockArgs.num_heads (a : FwdBlockArgs) : Nat := a.q.size 1

/-- `head_size = sizes[D_DIM]` (line 557). -/
def FwdBlockArgs.head_size (a : FwdBlockArgs) : Nat := a.q.size 2

/-- `total_k = k.size(TOTAL_DIM)` (line 558). -/
def FwdBlockArgs.total_k (a : FwdBlockArgs) : Nat := a.k.size 0

/-- Checks of `mha_fwd_block` preceding the blockmask-shape check, in source
order (lines 526-566): architecture gate `is_sm8x || is_sm90`, fp16-only
dtypes, int32 seqlens and blockmask, device residency, strides, contiguity
(line 548-549 checks `cu_seqlens_k` twice and `cu_seqlens_q` never),
`batch_size > 0`, the fixed head-size set {16, 32, 64, 128}, and the shape
checks. -/
def fwd_block_checks (a : FwdBlockArgs) : Bool :=
  (is_sm8x a.dprops || is_sm90 a.dprops)
  && (a.q.dtype == .fp16) && (a.k.dtype == .fp16) && (a.v.dtype == .fp16)
  && (a.cu_seqlens_q.dtype == .i32) && (a.cu_seqlens_k.dtype == .i32)
  && (a.blockmask.dtype == .i32)
  && a.q.isCuda && a.k.isCuda && a.v.isCuda
  && a.cu_seqlens_q.isCuda && a.cu_seqlens_k.isCuda && a.blockmask.isCuda
  && (a.q.lastStride == 1) && (a.k.lastStride == 1) && (a.v.lastStride == 1)
  && a.cu_seqlens_k.contiguous && a.blockmask.contiguous
  && decide (0 < a.batch_size)
  && (a.head_size == 16 || a.head_size == 32 || a.head_size == 64 || a.head_size == 128)
  && (a.q.sizes == [a.total_q, a.num_heads, a.head_size])
  && (a.k.sizes == [a.total_k, a.num_heads, a.head_size])
  && (a.v.sizes == [a.total_k, a.num_heads, a.head_size])
  && (a.cu_seqlens_q.sizes == [a.batch_size + 1])
  && (a.cu_seqlens_k.sizes == [a.batch_size + 1])

/-- The derived padded max key length for a block-sparse forward call. -/
def fwd_block_max_k (a : FwdBlockArgs) : Nat := round_seqlen_k_block a.max_seqlen_k_

/-- The derived padded max query length for a block-sparse forward call. -/
def fwd_block_max_q (a : FwdBlockArgs) : Nat := round_seqlen_q a.max_seqlen_q_

/-- The derived looping flag for a block-sparse forward call (line 573). -/
def fwd_block_loop (a : FwdBlockArgs) : Bool := loop_flag (fwd_block_max_k a) 256

/-- The blockmask shape check, line 574:
`CHECK_SHAPE(blockmask, max_seqlen_k / 256, max_seqlen_q / 16)`. -/
def fwd_block_mask_shape_ok (a : FwdBlockArgs) : Bool :=
  a.blockmask.sizes == [fwd_block_max_k a / 256, fwd_block_max_q a / 16]

/-- Event trace of `mha_fwd_block`: checks (526-566), derivation and blockmask
shape check (568-574), allocation of the float32 temporary when looping (583),
`set_params_fprop` with its `TORCH_CHECK(p_dropout < 1.f)` (line 117), the
configure launch (615), the RNG counter reservation for
`launch_params.elts_per_thread` counters under dropout (618-624), and the
execute launch (626).  The output tensor `o` is allocated inside the call
(line 578), so no caller-owned buffer is mutated. -/
def mha_fwd_block_trace (a : FwdBlockArgs) : List Event :=
  if fwd_block_checks a then
    if fwd_block_mask_shape_ok a then
      (if fwd_block_loop a then [Event.allocOTmpF32] else [])
      ++ (if a.p_dropout < 1 then
            [Event.configure]
            ++ (if 0 < a.p_dropout then [Event.rngReserve a.elts_per_thread] else [])
            ++ [Event.launchFwdBlock]
          else [Event.checkFail])
    else [Event.checkFail]
  else [Event.checkFail]

/-! ## mha_bwd_block (source lines 633-777) -/

/-- Arguments of `mha_bwd_block`. -/
structure BwdBlockArgs where
  dprops : DeviceProps
  dout : TensorArg
  q : TensorArg
  k : TensorArg
  v : TensorArg
  out : TensorArg
  softmax_lse : TensorArg
  dq : TensorArg
  dk : TensorArg
  dv : TensorArg
  cu_seqlens_q : TensorArg
  cu_seqlens_k : TensorArg
  blockmask : TensorArg
  max_seqlen_q_ : Nat
  max_seqlen_k_ : Nat
  p_dropout : ℚ
  softmax_scale : ℚ
  is_causal : Bool
deriving DecidableEq

/-- `batch_size = cu_seqlens_q.numel() - 1` (line 699). -/
def BwdBlockArgs.batch_size (a : BwdBlockArgs) : Nat := a.cu_seqlens_q.numel - 1

/-- `total_q = sizes[TOTAL_DIM]` (line 700). -/
def BwdBlockArgs.total_q (a : BwdBlockArgs) : Nat := a.q.size 0

/-- `num_heads = sizes[H_DIM]` (line 701). -/
def BwdBlockArgs.num_heads (a : BwdBlockArgs) : Nat := a.q.size 1

/-- `head_size = sizes[D_DIM]` (line 702). -/
def BwdBlockArgs.head_size (a : BwdBlockArgs) : Nat := a.q.size 2

/-- `total_k = k.size(TOTAL_DIM)` (line 703). -/
def BwdBlockArgs.total_k (a : BwdBlockArgs) : Nat := a.k.size 0

/-- Checks of `mha_bwd_block` preceding the blockmask-shape check, in source
order (lines 657-719): architecture gate, fp16-only dtypes for all eight data
tensors, int32 seqlens and blockmask, device residency, strides/contiguity,
`batch_size > 0`, the fixed head-size set with the additional gate
`head_size == 128 -> is_sm80 || is_sm90`, and the shape checks. -/
def bwd_block_checks (a : BwdBlockArgs) : Bool :=
  (is_sm8x a.dprops || is_sm90 a.dprops)
  && (a.q.dtype == .fp16) && (a.k.dtype == .fp16) && (a.v.dtype == .fp16)
  && (a.out.dtype == .fp16) && (a.dout.dtype == .fp16)
  && (a.dq.dtype == .fp16) && (a.dk.dtype == .fp16) && (a.dv.dtype == .fp16)
  && (a.cu_seqlens_q.dtype == .i32) && (a.cu_seqlens_k.dtype == .i32)
  && (a.blockmask.dtype == .i32)
  && a.q.isCuda && a.k.isCuda && a.v.isCuda && a.out.isCuda && a.dout.isCuda
  && a.softmax_lse.isCuda && a.cu_seqlens_q.isCuda && a.cu_seqlens_k.isCuda
  && a.blockmask.isCuda
  && (a.q.lastStride == 1) && (a.k.lastStride == 1) && (a.v.lastStride == 1)
  && a.out.contiguous && a.dout.contiguous
  && (a.dq.lastStride == 1) && (a.dk.lastStride == 1) && (a.dv.lastStride == 1)
  && a.cu_seqlens_q.contiguous && a.cu_seqlens_k.contiguous && a.blockmask.contiguous
  && decide (0 < a.batch_size)
  && (a.head_size == 16 || a.head_size == 32 || a.head_size == 64 || a.head_size == 128)
  && (!(a.head_size == 128) || (is_sm80 a.dprops || is_sm90 a.dprops))
  && (a.q.sizes == [a.total_q, a.num_heads, a.head_size])
  && (a.k.sizes == [a.total_k, a.num_heads, a.head_size])
  && (a.v.sizes == [a.total_k, a.num_heads, a.head_size])
  && (a.out.sizes == [a.total_q, a.num_heads, a.head_size])
  && (a.dout.sizes == [a.total_q, a.num_heads, a.head_size])
  && (a.dq.sizes == [a.total_q, a.num_heads, a.head_size])
  && (a.dk.sizes == [a.total_k, a.num_heads, a.head_size])
  && (a.dv.sizes == [a.total_k, a.num_heads, a.head_size])
  && (a.cu_seqlens_q.sizes == [a.batch_size + 1])
  && (a.cu_seqlens_k.sizes == [a.batch_size + 1])

/-- The derived padded max key length for a block-sparse backward call. -/
def bwd_block_max_k (a : BwdBlockArgs) : Nat := round_seqlen_k_block a.max_seqlen_k_

/-- The derived padded max query length for a block-sparse backward call. -/
def bwd_block_max_q (a : BwdBlockArgs) : Nat := round_seqlen_q a.max_seqlen_q_

/-- The derived looping flag for a block-sparse backward call (line 726). -/
def bwd_block_loop (a : BwdBlockArgs) : Bool := loop_flag (bwd_block_max_k a) 256

/-- The blockmask shape check, line 727. -/
def bwd_block_mask_shape_ok (a : BwdBlockArgs) : Bool :=
  a.blockmask.sizes == [bwd_block_max_k a / 256, bwd_block_max_q a / 16]

/-- Event trace of `mha_bwd_block`: checks (657-719), derivation and blockmask
shape check (721-727), the read-only truncating slice of the LogSumExp tensor
(730), allocation of the float32 `dq_tmp` when looping (737),
`set_params_dgrad` with its `TORCH_CHECK(p_dropout < 1.f)` (line 117), the RNG
counter reservation for the arbitrary constant 4 counters under dropout
(767-773), and the single kernel launch (775). -/
def mha_bwd_block_trace (a : BwdBlockArgs) : List Event :=
  if bwd_block_checks a then
    if bwd_block_mask_shape_ok a then
      (if bwd_block_loop a then [Event.allocDqTmpF32] else [])
      ++ (if a.p_dropout < 1 then
            (if 0 < a.p_dropout then [Event.rngReserve 4] else [])
            ++ [Event.launchBwdBlock]
          else [Event.checkFail])
    else [Event.checkFail]
  else [Event.checkFail]

/-! ## LogSumExp handling in the backward entry points (lines 440 and 730)

The backward passes take the caller's LogSumExp tensor
`softmax_lse_ : [b, h, s]` and pass
`softmax_lse_.index(Slice(), Slice(), Slice(None, max_seqlen_q)).contiguous()`
to the kernel parameters: a copy truncated to the backward pass's padded query
length.  The host code contains no write to `softmax_lse_`.  The tensor's
contents are modelled as nested lists of rationals. -/

/-- The truncating slice of line 440 / line 730: keep the first `m` entries
along the last axis. -/
def lse_slice (lse : List (List (List ℚ))) (m : Nat) : List (List (List ℚ)) :=
  lse.map (fun perBatch => perBatch.map (fun row => row.take m))

/-- The outcome of a backward call as far as the LogSumExp buffer is
concerned: the event trace, the caller's buffer after the call returns, and
the buffer contents handed to the kernel parameters (none when a precondition
failed before the slice). -/
structure BwdRun where
  trace : List Event
  lse_after : List (List (List ℚ))
  lse_for_kernel : Option (List (List (List ℚ)))

/-- `mha_bwd` acting on the caller's LogSumExp buffer: when the precondition
checks pass, the kernel receives the slice truncated to the derived padded max
query length (line 440); the caller's buffer is never written. -/
def mha_bwd_run (a : BwdArgs) (lse : List (List (List ℚ))) : BwdRun :=
  if bwd_checks a then
    { trace := mha_bwd_trace a
      lse_after := lse
      lse_for_kernel := some (lse_slice lse (bwd_max_q a)) }
  else
    { trace := [Event.checkFail], lse_after := lse, lse_for_kernel := none }

/-- `mha_bwd_block` acting on the caller's LogSumExp buffer: the slice of line
730 is taken after the blockmask shape check; the caller's buffer is never
written. -/
def mha_bwd_block_run (a : BwdBlockArgs) (lse : List (List (List ℚ))) : BwdRun :=
  if bwd_block_checks a && bwd_block_mask_shape_ok a then
    { trace := mha_bwd_block_trace a
      lse_after := lse
      lse_for_kernel := some (lse_slice lse (bwd_block_max_q a)) }
  else
    { trace := [Event.checkFail], lse_after := lse, lse_for_kernel := none }

/-! ## Helper lemmas -/

/-- Bounds for rounding up to a multiple: `((n + m - 1) / m) * m` is the least
multiple of `m` that is at least `n` (for positive `m` and positive `n`; for
`n = 0` it is `0`). -/
lemma round_up_bounds (n m : Nat) (hm : 0 < m) :
    n ≤ ((n + m - 1) / m) * m ∧ ((n + m - 1) / m) * m < n + m := by
  have h1 := Nat.div_add_mod (n + m - 1) m
  have h2 := Nat.mod_lt (n + m - 1) hm
  rw [Nat.mul_comm] at h1
  omega

/-- Membership of the forward launch event: the kernel runs exactly when all
precondition checks pass. -/
lemma launchFwd_mem_iff (a : FwdArgs) :
    Event.launchFwd ∈ mha_fwd_trace a ↔ (fwd_checks a = true ∧ a.p_dropout < 1) := by
  unfold mha_fwd_trace
  split_ifs <;> simp_all

/-- Membership of a forward RNG reservation: it happens exactly on accepted
dropout-enabled calls, and its offset is `batch_size * num_heads * 32`. -/
lemma rngReserve_mem_fwd_iff (a : FwdArgs) (o : ℤ) :
    Event.rngReserve o ∈ mha_fwd_trace a ↔
      (fwd_checks a = true ∧ 0 < a.p_dropout ∧ a.p_dropout < 1 ∧ o = fwd_counter_offset a) := by
  unfold mha_fwd_trace
  split_ifs <;> simp_all

/-- Membership of a forward check failure. -/
lemma checkFail_mem_fwd_iff (a : FwdArgs) :
    Event.checkFail ∈ mha_fwd_trace a ↔ (fwd_checks a = false ∨ ¬ a.p_dropout < 1) := by
  unfold mha_fwd_trace
  split_ifs <;> simp_all

/-- Membership of the forward float32 temporary-accumulator allocation: it is
allocated exactly on calls that pass the precondition checks and loop. -/
lemma allocOTmp_mem_fwd_iff (a : FwdArgs) :
    Event.allocOTmpF32 ∈ mha_fwd_trace a ↔ (fwd_checks a = true ∧ fwd_loop a = true) := by
  unfold mha_fwd_trace
  split_ifs <;> simp_all

/-- Membership of the backward execute launch. -/
lemma launchBwd_mem_iff (a : BwdArgs) :
    Event.launchBwd ∈ mha_bwd_trace a ↔ (bwd_checks a = true ∧ a.p_dropout < 1) := by
  unfold mha_bwd_trace
  split_ifs <;> simp_all

/-- Membership of a backward RNG reservation, with offset
`batch_size * num_heads * 32`. -/
lemma rngReserve_mem_bwd_iff (a : BwdArgs) (o : ℤ) :
    Event.rngReserve o ∈ mha_bwd_trace a ↔
      (bwd_checks a = true ∧ 0 < a.p_dropout ∧ a.p_dropout < 1 ∧ o = bwd_counter_offset a) := by
  unfold mha_bwd_trace
  split_ifs <;> simp_all

/-- Membership of a backward check failure. -/
lemma checkFail_mem_bwd_iff (a : BwdArgs) :
    Event.checkFail ∈ mha_bwd_trace a ↔ (bwd_checks a = false ∨ ¬ a.p_dropout < 1) := by
  unfold mha_bwd_trace
  split_ifs <;> simp_all

/-- Membership of the backward float32 temporary-accumulator allocation made
during parameter derivation (line 445). -/
lemma allocDqTmp_mem_bwd_iff (a : BwdArgs) :
    Event.allocDqTmpF32 ∈ mha_bwd_trace a ↔ (bwd_checks a = true ∧ bwd_loop a = true) := by
  unfold mha_bwd_trace
  split_ifs <;> simp_all

/-- Membership of the block-sparse forward execute launch. -/
lemma launchFwdBlock_mem_iff (a : FwdBlockArgs) :
    Event.launchFwdBlock ∈ mha_fwd_block_trace a ↔
      (fwd_block_checks a = true ∧ fwd_block_mask_shape_ok a = true ∧ a.p_dropout < 1) := by
  unfold mha_fwd_block_trace
  split_ifs <;> simp_all

/-- Membership of a block-sparse forward RNG reservation, with offset
`launch_params.elts_per_thread`. -/
lemma rngReserve_mem_fwd_block_iff (a : FwdBlockArgs) (o : ℤ) :
    Event.rngReserve o ∈ mha_fwd_block_trace a ↔
      (fwd_block_checks a = true ∧ fwd_block_mask_shape_ok a = true
        ∧ 0 < a.p_dropout ∧ a.p_dropout < 1 ∧ o = a.elts_per_thread) := by
  unfold mha_fwd_block_trace
  split_ifs <;> simp_all

/-- Membership of a block-sparse forward check failure. -/
lemma checkFail_mem_fwd_block_iff (a : FwdBlockArgs) :
    Event.checkFail ∈ mha_fwd_block_trace a ↔
      (fwd_block_checks a = false ∨ fwd_block_mask_shape_ok a = false ∨ ¬ a.p_dropout < 1) := by
  unfold mha_fwd_block_trace
  split_ifs <;> simp_all

/-- Membership of the block-sparse backward launch. -/
lemma launchBwdBlock_mem_iff (a : BwdBlockArgs) :
    Event.launchBwdBlock ∈ mha_bwd_block_trace a ↔
      (bwd_block_checks a = true ∧ bwd_block_mask_shape_ok a = true ∧ a.p_dropout < 1) := by
  unfold mha_bwd_block_trace
  split_ifs <;> simp_all

/-- Membership of a block-sparse backward RNG reservation, with the arbitrary
constant offset 4. -/
lemma rngReserve_mem_bwd_block_iff (a : BwdBlockArgs) (o : ℤ) :
    Event.rngReserve o ∈ mha_bwd_block_trace a ↔
      (bwd_block_checks a = true ∧ bwd_block_mask_shape_ok a = true
        ∧ 0 < a.p_dropout ∧ a.p_dropout < 1 ∧ o = 4) := by
  unfold mha_bwd_block_trace
  split_ifs <;> simp_all

/-- Membership of a block-sparse backward check failure. -/
lemma checkFail_mem_bwd_block_iff (a : BwdBlockArgs) :
    Event.checkFail ∈ mha_bwd_block_trace a ↔
      (bwd_block_checks a = false ∨ bwd_block_mask_shape_ok a = false ∨ ¬ a.p_dropout < 1) := by
  unfold mha_bwd_block_trace
  split_ifs <;> simp_all

/-- A `take m` of a list is determined by its first `m` entries. -/
lemma take_eq_of_agree (r r' : List ℚ) (m : Nat)
    (h : ∀ i, i < m → r.get? i = r'.get? i) : r.take m = r'.take m := by
  apply List.ext_get?
  intro i
  rw [List.get?_take_eq_if, List.get?_take_eq_if]
  split_ifs with hi
  · exact h i hi
  · rfl

/-- Membership of the caller-buffer zeroing event in the forward trace: it
happens exactly when the checks pass and zero-initialization was requested
(and, notably, regardless of whether the dropout-probability check later
fails). -/
lemma zeroOut_mem_fwd_iff (a : FwdArgs) :
    Event.zeroOut ∈ mha_fwd_trace a ↔ (fwd_checks a = true ∧ a.zero_tensors = true) := by
  unfold mha_fwd_trace
  split_ifs <;> simp_all

/-- Membership of the `dq` zeroing event in the backward trace. -/
lemma zeroDq_mem_bwd_iff (a : BwdArgs) :
    Event.zeroDq ∈ mha_bwd_trace a ↔ (bwd_checks a = true ∧ a.zero_tensors = true) := by
  unfold mha_bwd_trace
  split_ifs <;> simp_all

/-- Membership of the `dk` zeroing event in the backward trace. -/
lemma zeroDk_mem_bwd_iff (a : BwdArgs) :
    Event.zeroDk ∈ mha_bwd_trace a ↔ (bwd_checks a = true ∧ a.zero_tensors = true) := by
  unfold mha_bwd_trace
  split_ifs <;> simp_all

/-- Membership of the `dv` zeroing event in the backward trace. -/
lemma zeroDv_mem_bwd_iff (a : BwdArgs) :
    Event.zeroDv ∈ mha_bwd_trace a ↔ (bwd_checks a = true ∧ a.zero_tensors = true) := by
  unfold mha_bwd_trace
  split_ifs <;> simp_all

/-- Membership of the copy of the temporary accumulator back into the
caller's `dq`: it happens only on fully accepted calls with a finalized split
count above 1. -/
lemma copyDqTmp_mem_bwd_iff (a : BwdArgs) :
    Event.copyDqTmpToDq ∈ mha_bwd_trace a ↔
      (bwd_checks a = true ∧ a.p_dropout < 1 ∧ 1 < a.configured_num_splits) := by
  unfold mha_bwd_trace
  split_ifs <;> simp_all

/-- The forward trace never mutates gradient buffers. -/
lemma fwd_no_bwd_mutations (a : FwdArgs) :
    Event.zeroDq ∉ mha_fwd_trace a ∧ Event.zeroDk ∉ mha_fwd_trace a
    ∧ Event.zeroDv ∉ mha_fwd_trace a ∧ Event.copyDqTmpToDq ∉ mha_fwd_trace a := by
  unfold mha_fwd_trace
  split_ifs <;> simp

/-- The backward trace never mutates the forward output buffer. -/
lemma bwd_no_zeroOut (a : BwdArgs) : Event.zeroOut ∉ mha_bwd_trace a := by
  unfold mha_bwd_trace
  split_ifs <;> simp

/-- Pointwise absence of caller mutations, as a Boolean `all` over the trace. -/
lemma all_not_mutation_iff (l : List Event) :
    (∀ e ∈ l, caller_mutation e = false) ↔ l.all (fun e => !(caller_mutation e)) = true := by
  simp [List.all_eq_true]

/-- The block-sparse forward trace never mutates a caller-owned buffer (its
output tensor is allocated inside the call, line 578). -/
lemma fwd_block_no_mutation (c : FwdBlockArgs) :
    ∀ e ∈ mha_fwd_block_trace c, caller_mutation e = false := by
  rw [all_not_mutation_iff]
  unfold mha_fwd_block_trace
  split_ifs <;> simp [caller_mutation]

/-- The block-sparse backward trace never mutates a caller-owned buffer
before its single launch (it has no zero-initialization block and no
temporary-accumulator copy). -/
lemma bwd_block_no_mutation (d : BwdBlockArgs) :
    ∀ e ∈ mha_bwd_block_trace d, caller_mutation e = false := by
  rw [all_not_mutation_iff]
  unfold mha_bwd_block_trace
  split_ifs <;> simp [caller_mutation]

/-- Mapping a function over two lists related by a relation that the function
cannot distinguish yields equal results. -/
lemma map_eq_of_forall₂ {α β : Type} (R : α → α → Prop) (f : α → β)
    (hf : ∀ x y, R x y → f x = f y) :
    ∀ {l l' : List α}, List.Forall₂ R l l' → l.map f = l'.map f := by
  intro l l' hl
  induction hl with
  | nil => rfl
  | cons h _ ih => simp [hf _ _ h, ih]

/-! ## Concrete instances used by witnesses and counterexamples -/

/-- A compute-capability 8.0 device. -/
def sm80Dev : DeviceProps := ⟨8, 0⟩

/-- A compute-capability 7.5 device. -/
def sm75Dev : DeviceProps := ⟨7, 5⟩

/-- A valid packed fp16 data tensor with 8 tokens, 1 head, head size 16. -/
def tQ16 : TensorArg :=
  { sizes := [8, 1, 16], dtype := .fp16, isCuda := true, lastStride := 1, contiguous := true }

/-- A valid packed fp16 data tensor with head size 64. -/
def tQ64 : TensorArg :=
  { sizes := [8, 1, 64], dtype := .fp16, isCuda := true, lastStride := 1, contiguous := true }

/-- An fp16 data tensor with head size 48 (a multiple of 8, but outside the
block-sparse head-size set). -/
def tQ48 : TensorArg :=
  { sizes := [8, 1, 48], dtype := .fp16, isCuda := true, lastStride := 1, contiguous := true }

/-- A valid int32 sequence-offsets tensor for batch size 1. -/
def tCu2 : TensorArg :=
  { sizes := [2], dtype := .i32, isCuda := true, lastStride := 1, contiguous := true }

/-- A float32 LogSumExp tensor. -/
def tLse : TensorArg :=
  { sizes := [1, 1, 16], dtype := .f32, isCuda := true, lastStride := 1, contiguous := true }

/-- A valid int32 blockmask of shape (1, 1). -/
def tMask11 : TensorArg :=
  { sizes := [1, 1], dtype := .i32, isCuda := true, lastStride := 1, contiguous := true }

/-- An accepted forward call with dropout disabled. -/
def fwdOkNoDrop : FwdArgs :=
  { dprops := sm80Dev, q := tQ16, k := tQ16, v := tQ16, out := tQ16,
    cu_seqlens_q := tCu2, cu_seqlens_k := tCu2,
    max_seqlen_q_ := 8, max_seqlen_k_ := 8,
    p_dropout := 0, softmax_scale := 1,
    zero_tensors := false, is_causal := false, return_softmax := false,
    num_splits := 1 }

/-- An accepted forward call with dropout probability 1/2. -/
def fwdOkDrop : FwdArgs := { fwdOkNoDrop with p_dropout := mkRat 1 2 }

/-- A forward call that is valid except for its dropout probability 3/2, and
that requests zero-initialization. -/
def fwdBadDrop : FwdArgs :=
  { fwdOkNoDrop with
    p_dropout := mkRat 3 2
    zero_tensors := true }

/-- An accepted backward call on sm80 with dropout probability 1/2 and a
finalized split count of 2. -/
def bwdOk : BwdArgs :=
  { dprops := sm80Dev, dout := tQ16, q := tQ16, k := tQ16, v := tQ16, out := tQ16,
    softmax_lse := tLse, dq := tQ16, dk := tQ16, dv := tQ16,
    cu_seqlens_q := tCu2, cu_seqlens_k := tCu2,
    max_seqlen_q_ := 8, max_seqlen_k_ := 8,
    p_dropout := mkRat 1 2, softmax_scale := 1,
    zero_tensors := false, is_causal := false,
    num_splits := 1, configured_num_splits := 2 }

/-- An accepted backward call on sm75 hardware with head size 64. -/
def bwdSm75Head64 : BwdArgs :=
  { bwdOk with
    dprops := sm75Dev
    dout := tQ64
    q := tQ64
    k := tQ64
    v := tQ64
    out := tQ64
    dq := tQ64
    dk := tQ64
    dv := tQ64
    p_dropout := 0
    configured_num_splits := 1 }

/-- An accepted block-sparse forward call with dropout probability 1/2. -/
def fwdBlockOk : FwdBlockArgs :=
  { dprops := sm80Dev, q := tQ16, k := tQ16, v := tQ16,
    cu_seqlens_q := tCu2, cu_seqlens_k := tCu2, blockmask := tMask11,
    max_seqlen_q_ := 8, max_seqlen_k_ := 8,
    p_dropout := mkRat 1 2, softmax_scale := 1,
    is_causal := false, return_softmax := false,
    elts_per_thread := 7 }

/-- A block-sparse forward call with head size 48, outside the supported set. -/
def fwdBlockBadHead : FwdBlockArgs :=
  { fwdBlockOk with q := tQ48, k := tQ48, v := tQ48 }

/-- An accepted block-sparse backward call with dropout probability 1/2. -/
def bwdBlockOk : BwdBlockArgs :=
  { dprops := sm80Dev, dout := tQ16, q := tQ16, k := tQ16, v := tQ16, out := tQ16,
    softmax_lse := tLse, dq := tQ16, dk := tQ16, dv := tQ16,
    cu_seqlens_q := tCu2, cu_seqlens_k := tCu2, blockmask := tMask11,
    max_seqlen_q_ := 8, max_seqlen_k_ := 8,
    p_dropout := mkRat 1 2, softmax_scale := 1, is_causal := false }

/-- A block-sparse backward call with head size 48, outside the supported set. -/
def bwdBlockBadHead : BwdBlockArgs :=
  { bwdBlockOk with
    dout := tQ48
    q := tQ48
    k := tQ48
    v := tQ48
    out := tQ48
    dq := tQ48
    dk := tQ48
    dv := tQ48 }

/-- An accepted forward call with dropout disabled that requests
zero-initialization and the probability matrix. -/
def fwdOkZero : FwdArgs :=
  { fwdOkNoDrop with
    zero_tensors := true
    return_softmax := true }

/-- The accepted backward call with dropout disabled. -/
def bwdOkNoDrop : BwdArgs := { bwdOk with p_dropout := 0 }

/-- The accepted block-sparse forward call with dropout disabled. -/
def fwdBlockOkNoDrop : FwdBlockArgs := { fwdBlockOk with p_dropout := 0 }

/-- The accepted block-sparse backward call with dropout disabled. -/
def bwdBlockOkNoDrop : BwdBlockArgs := { bwdBlockOk with p_dropout := 0 }

example : mha_fwd_trace fwdOkNoDrop = [Event.launchFwd] := by decide

example : mha_fwd_trace fwdOkDrop = [Event.rngReserve 32, Event.launchFwd] := by decide

example : mha_fwd_trace fwdBadDrop = [Event.zeroOut, Event.fillLseNegInf, Event.checkFail] := by
  decide

example : mha_bwd_trace bwdOk =
    [Event.configure, Event.zeroDqTmp, Event.rngReserve 32, Event.launchBwd,
     Event.copyDqTmpToDq] := by decide

example : mha_fwd_block_trace fwdBlockOk =
    [Event.configure, Event.rngReserve 7, Event.launchFwdBlock] := by decide

example : mha_bwd_block_trace bwdBlockOk = [Event.rngReserve 4, Event.launchBwdBlock] := by decide

example : mha_fwd_block_trace fwdBlockBadHead = [Event.checkFail] := by decide

example : mha_bwd_block_trace bwdBlockBadHead = [Event.checkFail] := by decide

example : bwd_checks bwdSm75Head64 = true ∧ bwd_bc bwdSm75Head64 = 128 := by decide

/-! ## Claim C1 -/

/-- C1 counterexample: the claim states that every dropout-enabled call to
any of the four entry points reserves an RNG counter offset of
`batch_size * num_heads * 32`.  On the accepted dropout-enabled block-sparse
backward call `bwdBlockOk` (batch size 1, 1 head), the code reserves the
arbitrary constant 4 (source line 767) and does not reserve
`1 * 1 * 32 = 32`. -/
theorem C1_counterexample :
    Event.rngReserve 4 ∈ mha_bwd_block_trace bwdBlockOk
    ∧ Event.rngReserve ((bwdBlockOk.batch_size : ℤ) * (bwdBlockOk.num_heads : ℤ) * 32)
        ∉ mha_bwd_block_trace bwdBlockOk
    ∧ (bwdBlockOk.batch_size : ℤ) * (bwdBlockOk.num_heads : ℤ) * 32 = 32 := by
  decide

/-- C1 (amended): in `mha_fwd` and `mha_bwd` every RNG reservation uses the
offset `batch_size * num_heads * 32` (and a reservation happens on every
accepted dropout-enabled call); `mha_fwd_block` instead reserves the
per-thread element count produced by its configure pass, and `mha_bwd_block`
reserves the arbitrary constant 4. -/
theorem C1_rng_counter_offsets (a : FwdArgs) (b : BwdArgs) (c : FwdBlockArgs)
    (d : BwdBlockArgs) :
    (∀ o : ℤ, Event.rngReserve o ∈ mha_fwd_trace a → o = fwd_counter_offset a)
    ∧ (∀ o : ℤ, Event.rngReserve o ∈ mha_bwd_trace b → o = bwd_counter_offset b)
    ∧ (∀ o : ℤ, Event.rngReserve o ∈ mha_fwd_block_trace c → o = c.elts_per_thread)
    ∧ (∀ o : ℤ, Event.rngReserve o ∈ mha_bwd_block_trace d → o = 4)
    ∧ (fwd_checks a = true → 0 < a.p_dropout → a.p_dropout < 1 →
        Event.rngReserve (fwd_counter_offset a) ∈ mha_fwd_trace a)
    ∧ (bwd_checks b = true → 0 < b.p_dropout → b.p_dropout < 1 →
        Event.rngReserve (bwd_counter_offset b) ∈ mha_bwd_trace b) := by
  refine ⟨?_, ?_, ?_, ?_, ?_, ?_⟩
  · intro o h
    exact ((rngReserve_mem_fwd_iff a o).1 h).2.2.2
  · intro o h
    exact ((rngReserve_mem_bwd_iff b o).1 h).2.2.2
  · intro o h
    exact ((rngReserve_mem_fwd_block_iff c o).1 h).2.2.2.2
  · intro o h
    exact ((rngReserve_mem_bwd_block_iff d o).1 h).2.2.2.2
  · intro h1 h2 h3
    exact (rngReserve_mem_fwd_iff a _).2 ⟨h1, h2, h3, rfl⟩
  · intro h1 h2 h3
    exact (rngReserve_mem_bwd_iff b _).2 ⟨h1, h2, h3, rfl⟩

/-- C1 witness: the amended theorem applied to the accepted dropout-enabled
forward and backward calls. -/
theorem C1_witness :
    Event.rngReserve (fwd_counter_offset fwdOkDrop) ∈ mha_fwd_trace fwdOkDrop
    ∧ Event.rngReserve (bwd_counter_offset bwdOk) ∈ mha_bwd_trace bwdOk :=
  ⟨(C1_rng_counter_offsets fwdOkDrop bwdOk fwdBlockOk bwdBlockOk).2.2.2.2.1
      (by decide) (by decide) (by decide),
   (C1_rng_counter_offsets fwdOkDrop bwdOk fwdBlockOk bwdBlockOk).2.2.2.2.2
      (by decide) (by decide) (by decide)⟩

/-! ## Claim C2 -/

/-- C2 counterexample: the claim states the key/value tile size for every
accepted forward or backward call is 128 if `head_dim > 64` else 256.  The
accepted backward call `bwdSm75Head64` (sm75 hardware, head size 64) derives
tile size 128 from source line 425, while the claimed rule gives 256. -/
theorem C2_counterexample :
    bwd_checks bwdSm75Head64 = true
    ∧ bwdSm75Head64.head_size = 64
    ∧ is_sm75 bwdSm75Head64.dprops = true
    ∧ bwd_bc bwdSm75Head64 = 128
    ∧ spec_kv_tile_size bwdSm75Head64.head_size = 256 := by
  decide

/-- C2 (amended): for forward calls (and for backward calls on non-sm75
hardware) the key/value tile size is 128 if `head_dim > 64` else 256, while
backward on sm75 already uses 128 whenever `head_dim > 32`; the padded max
query length is the least multiple of 16 at least the raw value; the padded
max key length is fixed to 128 when the raw value is at most 128, to 256 when
at most 256, and otherwise is the least multiple of the tile size at least
the raw value; the looping flag holds iff the padded max key length exceeds
the tile size; and the float32 temporary accumulator of the derivation block
is allocated exactly on accepted looping calls. -/
theorem C2_parameter_derivation (hd raw_q raw_k bc : Nat) (sm75 : Bool)
    (a : FwdArgs) (b : BwdArgs) :
    blocksize_c_fwd hd = spec_kv_tile_size hd
    ∧ blocksize_c_bwd hd false = spec_kv_tile_size hd
    ∧ (sm75 = true → 32 < hd → blocksize_c_bwd hd sm75 = 128)
    ∧ (sm75 = true → hd ≤ 32 → blocksize_c_bwd hd sm75 = 256)
    ∧ (16 ∣ round_seqlen_q raw_q ∧ raw_q ≤ round_seqlen_q raw_q
        ∧ round_seqlen_q raw_q < raw_q + 16)
    ∧ (raw_k ≤ 128 → round_seqlen_k raw_k bc = 128)
    ∧ (128 < raw_k → raw_k ≤ 256 → round_seqlen_k raw_k bc = 256)
    ∧ (256 < raw_k → 0 < bc →
        bc ∣ round_seqlen_k raw_k bc ∧ raw_k ≤ round_seqlen_k raw_k bc
          ∧ round_seqlen_k raw_k bc < raw_k + bc)
    ∧ (loop_flag (round_seqlen_k raw_k bc) bc = true ↔ bc < round_seqlen_k raw_k bc)
    ∧ (Event.allocOTmpF32 ∈ mha_fwd_trace a ↔ (fwd_checks a = true ∧ fwd_loop a = true))
    ∧ (Event.allocDqTmpF32 ∈ mha_bwd_trace b ↔ (bwd_checks b = true ∧ bwd_loop b = true)) := by
  refine ⟨rfl, ?_, ?_, ?_, ?_, ?_, ?_, ?_, ?_, ?_, ?_⟩
  · simp [blocksize_c_bwd, spec_kv_tile_size]
  · intro h1 h2
    have h3 : decide (hd > 32) = true := by simpa using h2
    simp [blocksize_c_bwd, h1, h3]
  · intro h1 h2
    have h3 : ¬ hd > 64 := by omega
    have h4 : decide (hd > 32) = false := by simpa using h2
    simp [blocksize_c_bwd, h1, h3, h4]
  · refine ⟨dvd_mul_left 16 _, ?_, ?_⟩
    · exact (round_up_bounds raw_q 16 (by norm_num)).1
    · exact (round_up_bounds raw_q 16 (by norm_num)).2
  · intro h
    simp [round_seqlen_k, h]
  · intro h1 h2
    rw [round_seqlen_k, if_neg (by omega), if_pos h2]
  · intro h1 h2
    rw [round_seqlen_k, if_neg (by omega), if_neg (by omega)]
    exact ⟨dvd_mul_left bc _, (round_up_bounds raw_k bc h2).1, (round_up_bounds raw_k bc h2).2⟩
  · simp [loop_flag]
  · exact allocOTmp_mem_fwd_iff a
  · exact allocDqTmp_mem_bwd_iff b

/-- C2 witness: the amended theorem applied at concrete derivation inputs
(head size 40 on sm75, raw lengths 100 and 300, tile size 128) and the
accepted calls. -/
theorem C2_witness :
    round_seqlen_k 100 256 = 128
    ∧ round_seqlen_k 300 128 = 384
    ∧ blocksize_c_bwd 40 true = 128 := by
  obtain ⟨-, -, h3, -, -, h6, -, -, -, -, -⟩ :=
    C2_parameter_derivation 40 100 100 256 true fwdOkNoDrop bwdOk
  obtain ⟨-, -, -, -, -, -, -, h8, -, -, -⟩ :=
    C2_parameter_derivation 40 100 300 128 true fwdOkNoDrop bwdOk
  refine ⟨h6 (by norm_num), ?_, h3 rfl (by norm_num)⟩
  obtain ⟨hdvd, hle, hlt⟩ := h8 (by norm_num) (by norm_num)
  omega

/-! ## Claim C3 -/

/-- C3 counterexample: the claim states the 32-bit fixed-point threshold
equals `floor(p * 2^32)` for keep probability `p`.  At drop probability 1/2
(keep probability 1/2) the source computes
`floor(0.5 * 4294967295) = 2147483647`, while the claimed formula gives
`floor(0.5 * 2^32) = 2147483648`; the 16-bit values differ likewise. -/
theorem C3_counterexample :
    p_dropout_in_uint (1/2) = 2147483647
    ∧ spec_threshold32 (keep_prob (1/2)) = 2147483648
    ∧ p_dropout_in_uint16 (1/2) = 32767
    ∧ spec_threshold16 (keep_prob (1/2)) = 32768 := by
  refine ⟨?_, ?_, ?_, ?_⟩ <;>
    norm_num [p_dropout_in_uint, p_dropout_in_uint16, spec_threshold32, spec_threshold16,
      keep_prob]

/-- C3 (amended): for every drop probability `p` with `0 ≤ p < 1` (keep
probability `1 - p` in `(0, 1]`), the stored 32-bit threshold equals
`floor(keep * (2^32 - 1))` and the 16-bit one equals
`floor(keep * (2^16 - 1))`; both lie within the range of their unsigned
integer type, so the `uint32_t`/`uint16_t` casts are exact. -/
theorem C3_fixed_point_thresholds (p : ℚ) (h0 : 0 ≤ p) (h1 : p < 1) :
    p_dropout_in_uint p = Int.floor (keep_prob p * (2 ^ 32 - 1))
    ∧ p_dropout_in_uint16 p = Int.floor (keep_prob p * (2 ^ 16 - 1))
    ∧ 0 ≤ p_dropout_in_uint p ∧ p_dropout_in_uint p ≤ 2 ^ 32 - 1
    ∧ 0 ≤ p_dropout_in_uint16 p ∧ p_dropout_in_uint16 p ≤ 2 ^ 16 - 1 := by
  have hk0 : 0 < keep_prob p := by unfold keep_prob; linarith
  have hk1 : keep_prob p ≤ 1 := by unfold keep_prob; linarith
  refine ⟨by norm_num [p_dropout_in_uint], by norm_num [p_dropout_in_uint16], ?_, ?_, ?_, ?_⟩
  · exact Int.floor_nonneg.2 (by positivity)
  · calc p_dropout_in_uint p ≤ Int.floor ((4294967295 : ℚ)) := by
          exact Int.floor_le_floor (by nlinarith)
      _ = 4294967295 := by norm_num
      _ ≤ 2 ^ 32 - 1 := by norm_num
  · exact Int.floor_nonneg.2 (by positivity)
  · calc p_dropout_in_uint16 p ≤ Int.floor ((65535 : ℚ)) := by
          exact Int.floor_le_floor (by nlinarith)
      _ = 65535 := by norm_num
      _ ≤ 2 ^ 16 - 1 := by norm_num

/-- C3 witness: the amended theorem applied at drop probability 1/2. -/
theorem C3_witness :
    p_dropout_in_uint (1/2) = Int.floor (keep_prob (1/2) * ((2 : ℚ) ^ 32 - 1))
    ∧ 0 ≤ p_dropout_in_uint (1/2) := by
  obtain ⟨h1, -, h3, -, -, -⟩ := C3_fixed_point_thresholds (1/2) (by norm_num) (by norm_num)
  exact ⟨h1, h3⟩

/-! ## Claim C4 -/

/-- C4: in every accepted backward call the configure (plan) launch precedes
both the RNG counter reservation and the execute launch, and when the
finalized split count exceeds 1 the float32 query-gradient temporary is
zero-initialized before the execute launch and copied back into the caller's
`dq` after it. -/
theorem C4_plan_before_rng_and_execute (a : BwdArgs)
    (h1 : bwd_checks a = true) (h2 : a.p_dropout < 1) :
    ∃ pre mid post,
      mha_bwd_trace a = pre ++ [Event.configure] ++ mid ++ [Event.launchBwd] ++ post
      ∧ (∀ o : ℤ, Event.rngReserve o ∉ pre)
      ∧ (∀ o : ℤ, Event.rngReserve o ∉ post)
      ∧ (1 < a.configured_num_splits →
          Event.zeroDqTmp ∈ mid ∧ post = [Event.copyDqTmpToDq]) := by
  refine ⟨(if bwd_loop a then [Event.allocDqTmpF32] else [])
      ++ (if a.zero_tensors then
            [Event.zeroDq, Event.zeroDk, Event.zeroDv, Event.zeroSoftmaxD] else []),
    (if 1 < a.configured_num_splits then [Event.zeroDqTmp] else [])
      ++ (if 0 < a.p_dropout then [Event.rngReserve (bwd_counter_offset a)] else []),
    (if 1 < a.configured_num_splits then [Event.copyDqTmpToDq] else []),
    ?_, ?_, ?_, ?_⟩
  · unfold mha_bwd_trace
    rw [if_pos h1, if_pos h2]
    simp
  · intro o
    split_ifs <;> simp
  · intro o
    split_ifs <;> simp
  · intro hs
    refine ⟨?_, ?_⟩
    · rw [if_pos hs]
      simp
    · rw [if_pos hs]

/-- C4 witness: the theorem applied to the accepted dropout-enabled backward
call with finalized split count 2. -/
theorem C4_witness :
    ∃ pre mid post,
      mha_bwd_trace bwdOk = pre ++ [Event.configure] ++ mid ++ [Event.launchBwd] ++ post
      ∧ (∀ o : ℤ, Event.rngReserve o ∉ pre)
      ∧ (∀ o : ℤ, Event.rngReserve o ∉ post)
      ∧ (1 < bwdOk.configured_num_splits →
          Event.zeroDqTmp ∈ mid ∧ post = [Event.copyDqTmpToDq]) :=
  C4_plan_before_rng_and_execute bwdOk (by decide) (by decide)

/-! ## Claim C5 -/

/-- C5: in every forward call that requests zero-initialization and reaches
the kernel launch, the output buffer is zeroed, the LogSumExp buffer is
filled with negative infinity, and (when the probability matrix was
requested) the probability buffer is zeroed, all before the launch. -/
theorem C5_zero_init_before_launch (a : FwdArgs)
    (hz : a.zero_tensors = true) (hl : Event.launchFwd ∈ mha_fwd_trace a) :
    ∃ pre post,
      mha_fwd_trace a = pre ++ [Event.launchFwd] ++ post
      ∧ Event.zeroOut ∈ pre ∧ Event.fillLseNegInf ∈ pre
      ∧ (a.return_softmax = true → Event.zeroS ∈ pre) := by
  obtain ⟨h1, h2⟩ := (launchFwd_mem_iff a).1 hl
  refine ⟨(if fwd_loop a then [Event.allocOTmpF32] else [])
      ++ ([Event.zeroOut, Event.fillLseNegInf]
          ++ (if a.return_softmax then [Event.zeroS] else []))
      ++ (if 0 < a.p_dropout then [Event.rngReserve (fwd_counter_offset a)] else []),
    [], ?_, ?_, ?_, ?_⟩
  · unfold mha_fwd_trace
    rw [if_pos h1, if_pos hz, if_pos h2]
    simp
  · simp
  · simp
  · intro hs
    rw [if_pos hs]
    simp

/-- C5 witness: the theorem applied to the accepted forward call that
requests zero-initialization and the probability matrix. -/
theorem C5_witness :
    ∃ pre post,
      mha_fwd_trace fwdOkZero = pre ++ [Event.launchFwd] ++ post
      ∧ Event.zeroOut ∈ pre ∧ Event.fillLseNegInf ∈ pre
      ∧ (fwdOkZero.return_softmax = true → Event.zeroS ∈ pre) :=
  C5_zero_init_before_launch fwdOkZero (by decide) (by decide)

/-! ## Claim C6 -/

/-- C6 counterexample: the claim states every accepted call has keep
probability strictly below 1.  The accepted forward call `fwdOkNoDrop` (drop
probability 0) launches the kernel although its keep probability is exactly
1: the check at line 117 constrains the drop probability, not the keep
probability. -/
theorem C6_counterexample :
    Event.launchFwd ∈ mha_fwd_trace fwdOkNoDrop
    ∧ keep_prob fwdOkNoDrop.p_dropout = 1 := by
  refine ⟨by decide, ?_⟩
  norm_num [keep_prob, fwdOkNoDrop]

/-- C6 (amended): every call whose DROP probability is at least 1 fails
precondition validation before any kernel launch, and every accepted call
has drop probability strictly below 1 — equivalently keep probability
strictly above 0. -/
theorem C6_drop_probability_gate (a : FwdArgs) (b : BwdArgs) (c : FwdBlockArgs)
    (d : BwdBlockArgs) :
    (Event.launchFwd ∈ mha_fwd_trace a → a.p_dropout < 1 ∧ 0 < keep_prob a.p_dropout)
    ∧ (Event.launchBwd ∈ mha_bwd_trace b → b.p_dropout < 1 ∧ 0 < keep_prob b.p_dropout)
    ∧ (Event.launchFwdBlock ∈ mha_fwd_block_trace c →
        c.p_dropout < 1 ∧ 0 < keep_prob c.p_dropout)
    ∧ (Event.launchBwdBlock ∈ mha_bwd_block_trace d →
        d.p_dropout < 1 ∧ 0 < keep_prob d.p_dropout)
    ∧ (1 ≤ a.p_dropout →
        Event.launchFwd ∉ mha_fwd_trace a ∧ Event.checkFail ∈ mha_fwd_trace a)
    ∧ (1 ≤ b.p_dropout →
        Event.launchBwd ∉ mha_bwd_trace b ∧ Event.checkFail ∈ mha_bwd_trace b)
    ∧ (1 ≤ c.p_dropout →
        Event.launchFwdBlock ∉ mha_fwd_block_trace c ∧ Event.checkFail ∈ mha_fwd_block_trace c)
    ∧ (1 ≤ d.p_dropout →
        Event.launchBwdBlock ∉ mha_bwd_block_trace d
          ∧ Event.checkFail ∈ mha_bwd_block_trace d) := by
  refine ⟨?_, ?_, ?_, ?_, ?_, ?_, ?_, ?_⟩
  · intro h
    have hp := ((launchFwd_mem_iff a).1 h).2
    exact ⟨hp, by unfold keep_prob; linarith⟩
  · intro h
    have hp := ((launchBwd_mem_iff b).1 h).2
    exact ⟨hp, by unfold keep_prob; linarith⟩
  · intro h
    have hp := ((launchFwdBlock_mem_iff c).1 h).2.2
    exact ⟨hp, by unfold keep_prob; linarith⟩
  · intro h
    have hp := ((launchBwdBlock_mem_iff d).1 h).2.2
    exact ⟨hp, by unfold keep_prob; linarith⟩
  · intro hp
    refine ⟨fun h => ?_, (checkFail_mem_fwd_iff a).2 (Or.inr (not_lt.2 hp))⟩
    exact absurd ((launchFwd_mem_iff a).1 h).2 (not_lt.2 hp)
  · intro hp
    refine ⟨fun h => ?_, (checkFail_mem_bwd_iff b).2 (Or.inr (not_lt.2 hp))⟩
    exact absurd ((launchBwd_mem_iff b).1 h).2 (not_lt.2 hp)
  · intro hp
    refine ⟨fun h => ?_, (checkFail_mem_fwd_block_iff c).2 (Or.inr (Or.inr (not_lt.2 hp)))⟩
    exact absurd ((launchFwdBlock_mem_iff c).1 h).2.2 (not_lt.2 hp)
  · intro hp
    refine ⟨fun h => ?_, (checkFail_mem_bwd_block_iff d).2 (Or.inr (Or.inr (not_lt.2 hp)))⟩
    exact absurd ((launchBwdBlock_mem_iff d).1 h).2.2 (not_lt.2 hp)

/-- C6 witness: the amended theorem applied to the accepted dropout-enabled
forward call and to the rejected call with drop probability 3/2. -/
theorem C6_witness :
    (fwdOkDrop.p_dropout < 1 ∧ 0 < keep_prob fwdOkDrop.p_dropout)
    ∧ (Event.launchFwd ∉ mha_fwd_trace fwdBadDrop
        ∧ Event.checkFail ∈ mha_fwd_trace fwdBadDrop) :=
  ⟨(C6_drop_probability_gate fwdOkDrop bwdOk fwdBlockOk bwdBlockOk).1 (by decide),
   (C6_drop_probability_gate fwdBadDrop bwdOk fwdBlockOk bwdBlockOk).2.2.2.2.1 (by decide)⟩

/-! ## Claim C7 -/

/-- C7 counterexample: the claim states that a call failing any precondition
check modifies no caller-visible buffer.  The forward call `fwdBadDrop`
(zero-initialization requested, drop probability 3/2) zeroes the caller's
output buffer at line 284 and only afterwards fails the dropout-probability
check at line 117, without launching the kernel. -/
theorem C7_counterexample :
    Event.checkFail ∈ mha_fwd_trace fwdBadDrop
    ∧ Event.zeroOut ∈ mha_fwd_trace fwdBadDrop
    ∧ caller_mutation Event.zeroOut = true
    ∧ Event.launchFwd ∉ mha_fwd_trace fwdBadDrop := by
  decide

/-- C7 (amended): every call that fails a precondition check raises without
launching a compute kernel, and modifies no caller-visible buffer except
that, when the caller requested zero-initialization, the forward output (or
the backward gradient buffers) may already have been zeroed, because the
dropout-probability check runs after the caller-requested zeroing; the
block-sparse entry points mutate no caller-owned buffer at all before their
launches. -/
theorem C7_no_partial_results (a : FwdArgs) (b : BwdArgs) (c : FwdBlockArgs)
    (d : BwdBlockArgs) :
    (Event.checkFail ∈ mha_fwd_trace a →
      Event.launchFwd ∉ mha_fwd_trace a
      ∧ ∀ e ∈ mha_fwd_trace a, caller_mutation e = true →
          a.zero_tensors = true ∧ e = Event.zeroOut)
    ∧ (Event.checkFail ∈ mha_bwd_trace b →
      Event.launchBwd ∉ mha_bwd_trace b
      ∧ ∀ e ∈ mha_bwd_trace b, caller_mutation e = true →
          b.zero_tensors = true
            ∧ (e = Event.zeroDq ∨ e = Event.zeroDk ∨ e = Event.zeroDv))
    ∧ (Event.checkFail ∈ mha_fwd_block_trace c →
      Event.launchFwdBlock ∉ mha_fwd_block_trace c
      ∧ ∀ e ∈ mha_fwd_block_trace c, caller_mutation e = false)
    ∧ (Event.checkFail ∈ mha_bwd_block_trace d →
      Event.launchBwdBlock ∉ mha_bwd_block_trace d
      ∧ ∀ e ∈ mha_bwd_block_trace d, caller_mutation e = false) := by
  refine ⟨?_, ?_, ?_, ?_⟩
  · intro hf
    refine ⟨fun hl => ?_, ?_⟩
    · rcases (checkFail_mem_fwd_iff a).1 hf with h | h
      · exact absurd ((launchFwd_mem_iff a).1 hl).1 (by simp [h])
      · exact h ((launchFwd_mem_iff a).1 hl).2
    · intro e he hm
      cases e <;> simp [caller_mutation] at hm
      case zeroOut => exact ⟨((zeroOut_mem_fwd_iff a).1 he).2, rfl⟩
      case zeroDq => exact absurd he (fwd_no_bwd_mutations a).1
      case zeroDk => exact absurd he (fwd_no_bwd_mutations a).2.1
      case zeroDv => exact absurd he (fwd_no_bwd_mutations a).2.2.1
      case copyDqTmpToDq => exact absurd he (fwd_no_bwd_mutations a).2.2.2
  · intro hf
    refine ⟨fun hl => ?_, ?_⟩
    · rcases (checkFail_mem_bwd_iff b).1 hf with h | h
      · exact absurd ((launchBwd_mem_iff b).1 hl).1 (by simp [h])
      · exact h ((launchBwd_mem_iff b).1 hl).2
    · intro e he hm
      cases e <;> simp [caller_mutation] at hm
      case zeroOut => exact absurd he (bwd_no_zeroOut b)
      case zeroDq => exact ⟨((zeroDq_mem_bwd_iff b).1 he).2, Or.inl rfl⟩
      case zeroDk => exact ⟨((zeroDk_mem_bwd_iff b).1 he).2, Or.inr (Or.inl rfl)⟩
      case zeroDv => exact ⟨((zeroDv_mem_bwd_iff b).1 he).2, Or.inr (Or.inr rfl)⟩
      case copyDqTmpToDq =>
        rcases (checkFail_mem_bwd_iff b).1 hf with h | h
        · exact absurd ((copyDqTmp_mem_bwd_iff b).1 he).1 (by simp [h])
        · exact absurd ((copyDqTmp_mem_bwd_iff b).1 he).2.1 h
  · intro hf
    refine ⟨fun hl => ?_, fwd_block_no_mutation c⟩
    rcases (checkFail_mem_fwd_block_iff c).1 hf with h | h | h
    · exact absurd ((launchFwdBlock_mem_iff c).1 hl).1 (by simp [h])
    · exact absurd ((launchFwdBlock_mem_iff c).1 hl).2.1 (by simp [h])
    · exact h ((launchFwdBlock_mem_iff c).1 hl).2.2
  · intro hf
    refine ⟨fun hl => ?_, bwd_block_no_mutation d⟩
    rcases (checkFail_mem_bwd_block_iff d).1 hf with h | h | h
    · exact absurd ((launchBwdBlock_mem_iff d).1 hl).1 (by simp [h])
    · exact absurd ((launchBwdBlock_mem_iff d).1 hl).2.1 (by simp [h])
    · exact h ((launchBwdBlock_mem_iff d).1 hl).2.2

/-- C7 witness: the amended theorem applied to the rejected forward call with
drop probability 3/2 and zero-initialization requested. -/
theorem C7_witness :
    Event.launchFwd ∉ mha_fwd_trace fwdBadDrop
    ∧ ∀ e ∈ mha_fwd_trace fwdBadDrop, caller_mutation e = true →
        fwdBadDrop.zero_tensors = true ∧ e = Event.zeroOut :=
  (C7_no_partial_results fwdBadDrop bwdOk fwdBlockOk bwdBlockOk).1 (by decide)

/-! ## Claim C8 -/

/-- C8: both backward entry points leave the caller's LogSumExp buffer
unchanged, hand the kernel exactly the slice truncated to the backward pass's
padded max query length, and that slice depends only on the first
padded-max-query-length entries of each row. -/
theorem C8_lse_read_only (a : BwdArgs) (d : BwdBlockArgs)
    (lse lse' : List (List (List ℚ))) (m : Nat) :
    (mha_bwd_run a lse).lse_after = lse
    ∧ (mha_bwd_block_run d lse).lse_after = lse
    ∧ (∀ v, (mha_bwd_run a lse).lse_for_kernel = some v → v = lse_slice lse (bwd_max_q a))
    ∧ (∀ v, (mha_bwd_block_run d lse).lse_for_kernel = some v →
        v = lse_slice lse (bwd_block_max_q d))
    ∧ (List.Forall₂ (List.Forall₂ (fun r r' : List ℚ => ∀ i, i < m → r.get? i = r'.get? i))
        lse lse' → lse_slice lse m = lse_slice lse' m) := by
  refine ⟨?_, ?_, ?_, ?_, ?_⟩
  · unfold mha_bwd_run
    split_ifs <;> rfl
  · unfold mha_bwd_block_run
    split_ifs <;> rfl
  · intro v hv
    unfold mha_bwd_run at hv
    by_cases h : bwd_checks a = true
    · rw [if_pos h] at hv
      simp at hv
      exact hv.symm
    · rw [if_neg h] at hv
      simp at hv
  · intro v hv
    unfold mha_bwd_block_run at hv
    by_cases h : (bwd_block_checks d && bwd_block_mask_shape_ok d) = true
    · rw [if_pos h] at hv
      simp at hv
      exact hv.symm
    · rw [if_neg h] at hv
      simp at hv
  · intro h
    unfold lse_slice
    refine map_eq_of_forall₂ _ _ ?_ h
    intro x y hxy
    refine map_eq_of_forall₂ _ _ ?_ hxy
    intro r r' hrr
    exact take_eq_of_agree r r' m hrr

/-- C8 witness: the theorem applied to the accepted backward call on a
concrete LogSumExp buffer. -/
theorem C8_witness :
    (mha_bwd_run bwdOk [[[(1 : ℚ), 2, 3]]]).lse_after = [[[(1 : ℚ), 2, 3]]]
    ∧ [[[(1 : ℚ), 2, 3]]] = lse_slice [[[(1 : ℚ), 2, 3]]] (bwd_max_q bwdOk) := by
  obtain ⟨h1, -, h3, -, -⟩ :=
    C8_lse_read_only bwdOk bwdBlockOk [[[(1 : ℚ), 2, 3]]] [[[(1 : ℚ), 2, 3]]] 16
  exact ⟨h1, h3 [[[(1 : ℚ), 2, 3]]] rfl⟩

/-! ## Claim C9 -/

/-- C9: every block-sparse forward or backward call whose head dimension is
outside {16, 32, 64, 128} fails precondition validation: its trace is a bare
check failure, with no configure pass and no kernel launch. -/
theorem C9_block_head_dim_gate (c : FwdBlockArgs) (d : BwdBlockArgs)
    (hc : ¬(c.head_size = 16 ∨ c.head_size = 32 ∨ c.head_size = 64 ∨ c.head_size = 128))
    (hd : ¬(d.head_size = 16 ∨ d.head_size = 32 ∨ d.head_size = 64 ∨ d.head_size = 128)) :
    mha_fwd_block_trace c = [Event.checkFail]
    ∧ mha_bwd_block_trace d = [Event.checkFail]
    ∧ Event.launchFwdBlock ∉ mha_fwd_block_trace c
    ∧ Event.configure ∉ mha_fwd_block_trace c
    ∧ Event.launchBwdBlock ∉ mha_bwd_block_trace d := by
  have h1 : fwd_block_checks c = false := by
    rw [Bool.eq_false_iff]
    intro h
    simp [fwd_block_checks] at h
    exact hc (by tauto)
  have h2 : bwd_block_checks d = false := by
    rw [Bool.eq_false_iff]
    intro h
    simp [bwd_block_checks] at h
    exact hd (by tauto)
  have t1 : mha_fwd_block_trace c = [Event.checkFail] := by
    simp [mha_fwd_block_trace, h1]
  have t2 : mha_bwd_block_trace d = [Event.checkFail] := by
    simp [mha_bwd_block_trace, h2]
  refine ⟨t1, t2, ?_, ?_, ?_⟩ <;> simp [t1, t2]

/-- C9 witness: the theorem applied to the block-sparse calls with head
dimension 48. -/
theorem C9_witness :
    mha_fwd_block_trace fwdBlockBadHead = [Event.checkFail]
    ∧ mha_bwd_block_trace bwdBlockBadHead = [Event.checkFail] := by
  obtain ⟨h1, h2, -, -, -⟩ :=
    C9_block_head_dim_gate fwdBlockBadHead bwdBlockBadHead (by decide) (by decide)
  exact ⟨h1, h2⟩

/-! ## Claim C10 -/

/-- C10: a call to any of the four entry points with dropout probability 0
never reserves an RNG counter offset, so the caller's generator state is left
untouched. -/
theorem C10_rng_untouched_without_dropout (a : FwdArgs) (b : BwdArgs) (c : FwdBlockArgs)
    (d : BwdBlockArgs) (ha : a.p_dropout = 0) (hb : b.p_dropout = 0)
    (hc : c.p_dropout = 0) (hd : d.p_dropout = 0) :
    (∀ o : ℤ, Event.rngReserve o ∉ mha_fwd_trace a)
    ∧ (∀ o : ℤ, Event.rngReserve o ∉ mha_bwd_trace b)
    ∧ (∀ o : ℤ, Event.rngReserve o ∉ mha_fwd_block_trace c)
    ∧ (∀ o : ℤ, Event.rngReserve o ∉ mha_bwd_block_trace d) := by
  refine ⟨fun o h => ?_, fun o h => ?_, fun o h => ?_, fun o h => ?_⟩
  · have hlt := ((rngReserve_mem_fwd_iff a o).1 h).2.1
    rw [ha] at hlt
    exact lt_irrefl 0 hlt
  · have hlt := ((rngReserve_mem_bwd_iff b o).1 h).2.1
    rw [hb] at hlt
    exact lt_irrefl 0 hlt
  · have hlt := ((rngReserve_mem_fwd_block_iff c o).1 h).2.2.1
    rw [hc] at hlt
    exact lt_irrefl 0 hlt
  · have hlt := ((rngReserve_mem_bwd_block_iff d o).1 h).2.2.1
    rw [hd] at hlt
    exact lt_irrefl 0 hlt

/-- C10 witness: the theorem applied to the accepted dropout-disabled calls. -/
theorem C10_witness :
    Event.rngReserve 32 ∉ mha_fwd_trace fwdOkNoDrop
    ∧ Event.rngReserve 4 ∉ mha_bwd_block_trace bwdBlockOkNoDrop :=
  ⟨(C10_rng_untouched_without_dropout fwdOkNoDrop bwdOkNoDrop fwdBlockOkNoDrop
      bwdBlockOkNoDrop rfl rfl rfl rfl).1 32,
   (C10_rng_untouched_without_dropout fwdOkNoDrop bwdOkNoDrop fwdBlockOkNoDrop
      bwdBlockOkNoDrop rfl rfl rfl rfl).2.2.2 4⟩

end FlashAttn
